import Mathlib

/-!
Verification of the anvil-connect-nodejs client library.

The development embeds the two source modules as pure Lean functions:

* `lib/AccessToken.js` — token decoding (`AccessToken.decode`) and
  verification (`AccessToken.verify`): classification of a token into
  structured (JWT-shaped) versus opaque form, resolution of candidate
  claims (local decode versus remote introspection), and the ordered
  claim checks (issuer, audience, expiry, scope).
* the main client module (`index.js`) — `authorizationParams`,
  `authorizationUri`, `token` and the standalone `verify` entry point.

External collaborators (base64/JSON parsing of token segments, the HTTP
transport and the introspection endpoint's response) are modelled as
parameters of the verification environment, so every theorem quantifies
over their behaviour.  JavaScript truthiness on optional string values
(`undefined` and `""` are falsy) is modelled explicitly by `jsTruthy`.
-/

set_option autoImplicit false

namespace AnvilConnect

/-! ### JavaScript-semantics helpers -/

/-- Truthiness of an optional JS string: `undefined` and `""` are falsy. -/
def jsTruthy : Option String → Bool
  | some s => !(s == "")
  | none => false

/-- The JS idiom `a || b` on an optional string `a` with default `b`. -/
def jsOrS : Option String → String → String
  | some s, d => if s == "" then d else s
  | none, d => d

/-- `token.indexOf('.') !== -1`: the token contains at least one dot. -/
def containsDot (t : String) : Bool :=
  t.data.any (fun c => c == '.')

/-- `String.prototype.split(sep)` on a single-character separator, JS
semantics: splitting the empty string yields `[""]`, adjacent separators
yield empty segments. -/
def splitOnChar (sep : Char) : List Char → List (List Char)
  | [] => [[]]
  | c :: rest =>
    let r := splitOnChar sep rest
    if c == sep then [] :: r
    else
      match r with
      | [] => [[c]]
      | s :: ss => (c :: s) :: ss

/-- `needle` is a leading segment of `hay` (character-wise). -/
def leadMatch : List Char → List Char → Bool
  | [], _ => true
  | _ :: _, [] => false
  | n :: ns, h :: hs => (n == h) && leadMatch ns hs

/-- `hay.indexOf(needle) !== -1`: `needle` occurs contiguously in `hay`. -/
def occursIn (needle : List Char) : List Char → Bool
  | [] => leadMatch needle []
  | h :: hs => leadMatch needle (h :: hs) || occursIn needle hs

/-- `hay.indexOf(needle) !== -1` on strings. -/
def strIncludes (hay needle : String) : Bool :=
  occursIn needle.data hay.data

/-! ### Data model: claims, headers, errors (`lib/AccessToken.js`) -/

/-- The claims recognised by the `AccessToken` payload schema:
`jti, iss, sub, aud, exp, iat, scope` (`exp`/`iat` are IntDate, the rest
strings; `scope` is a space-delimited string). -/
structure Claims where
  jti : String
  iss : String
  sub : String
  aud : String
  scope : String
  exp : Int
  iat : Int
  deriving DecidableEq, Repr

/-- The JOSE header of a structured token; only `alg` is recognised. -/
structure JwtHeader where
  alg : String
  deriving DecidableEq, Repr

/-- The shape of `UnauthorizedError` objects constructed by the library:
realm (optional), OAuth2 error code, human description, HTTP status. -/
structure UnauthorizedError where
  realm : Option String
  error : String
  error_description : String
  statusCode : Nat
  deriving DecidableEq, Repr

/-- `new Error('Invalid access token segments')` and
`new Error('Unable to decode token')` as returned by `AccessToken.decode`;
`AccessToken.verify` treats both identically (`at instanceof Error`). -/
inductive DecodeError where
  | invalidSegments
  | unableToDecode
  deriving DecidableEq, Repr

/-- The value returned by a successful `AccessToken.decode`: decoded
header, decoded payload, and the raw (still encoded) signature segment. -/
structure DecodedAccessToken where
  header : JwtHeader
  payload : Claims
  signature : List Char
  deriving DecidableEq, Repr

/-- The base64-decode/JSON-parse collaborators used on the header and
payload segments (`JSON.parse(new Buffer(seg, 'base64').toString())`).
`none` models a thrown decode/parse exception. -/
structure DecodeEnv where
  parseHeaderSeg : List Char → Option JwtHeader
  parsePayloadSeg : List Char → Option Claims

/-- `AccessToken.decode(token, publickey)`: split on `.`, require exactly
3 segments, base64-decode and JSON-parse header and payload.  Note that
the `publickey` parameter is accepted but never used, exactly as in the
source: no signature verification happens here. -/
def AccessToken.decode (token : String) (publickey : String) (env : DecodeEnv) :
    Except DecodeError DecodedAccessToken :=
  let segments := splitOnChar '.' token.data
  if segments.length ≠ 3 then
    .error .invalidSegments
  else
    match env.parseHeaderSeg (segments.getD 0 []), env.parsePayloadSeg (segments.getD 1 []) with
    | some header, some payload => .ok ⟨header, payload, segments.getD 2 []⟩
    | some _, none => .error .unableToDecode
    | none, _ => .error .unableToDecode

/-! ### Verification options and environment -/

/-- The options object consumed by `AccessToken.verify`: issuer, client
credentials (used for introspection auth), the signing key, an optional
list of acceptable client ids (`options.clients`), and an optional
required scope. -/
structure VerifyOptions where
  issuer : String
  client_id : String
  client_secret : String
  key : String
  clients : Option (List String)
  scope : Option String
  deriving DecidableEq, Repr

/-- Outcome of the introspection POST to `<issuer>/token/verify`:
a superagent transport error, a response body carrying an `error` field,
or a response body taken as the claims. -/
inductive IntrospectResponse where
  | transportErr (msg : String)
  | errorBody (e : UnauthorizedError)
  | success (claims : Claims)
  deriving DecidableEq, Repr

/-- Errors surfaced through `AccessToken.verify`'s callback: structured
`UnauthorizedError`s, or transport errors passed through unchanged. -/
inductive VerifyError where
  | unauthorized (e : UnauthorizedError)
  | transport (msg : String)
  deriving DecidableEq, Repr

deriving instance DecidableEq for Except

/-- The external world of a single `AccessToken.verify` call: the
segment parsers, the introspection endpoint's response, and the current
time in seconds (`nowSeconds()`). -/
structure VerifyEnv where
  decodeEnv : DecodeEnv
  introspect : IntrospectResponse
  now : Int

/-- 401 error for a malformed structured token. -/
def invalidAccessTokenError : UnauthorizedError :=
  ⟨some "user", "invalid_token", "Invalid access token", 401⟩

/-- 403 error for a mismatching issuer. -/
def mismatchingIssuerError : UnauthorizedError :=
  ⟨none, "invalid_token", "Mismatching issuer", 403⟩

/-- 403 error for a mismatching audience. -/
def mismatchingAudienceError : UnauthorizedError :=
  ⟨none, "invalid_token", "Mismatching audience", 403⟩

/-- 403 error for an expired token. -/
def expiredAccessTokenError : UnauthorizedError :=
  ⟨none, "invalid_token", "Expired access token", 403⟩

/-- 403 error for insufficient scope. -/
def insufficientScopeError : UnauthorizedError :=
  ⟨none, "insufficient_scope", "Insufficient scope", 403⟩

/-! ### The two resolution branches of `async.parallel` -/

/-- The `jwt` branch: active only when the token contains a `.`; decodes
locally, mapping any decode error to the 401 invalid-token error.
`.ok none` means the branch was inactive (`done()` with no result). -/
def jwtBranch (token : String) (options : VerifyOptions) (env : VerifyEnv) :
    Except VerifyError (Option DecodedAccessToken) :=
  if containsDot token then
    match AccessToken.decode token options.key env.decodeEnv with
    | .error _ => .error (.unauthorized invalidAccessTokenError)
    | .ok d => .ok (some d)
  else
    .ok none

/-- The `random` branch: active only when the token contains no `.`;
POSTs the token to `<issuer>/token/verify` and interprets the response.
`.ok none` means the branch was inactive. -/
def randomBranch (token : String) (env : VerifyEnv) :
    Except VerifyError (Option Claims) :=
  if !(containsDot token) then
    match env.introspect with
    | .transportErr msg => .error (.transport msg)
    | .errorBody e => .error (.unauthorized e)
    | .success body => .ok (some body)
  else
    .ok none

/-- `clients && clients.indexOf(claims.aud) === -1`: the audience check
fires only when an acceptable-clients list is configured (any array,
even empty, is truthy in JS). -/
def audienceMismatch : Option (List String) → String → Bool
  | some cs, aud => !(cs.contains aud)
  | none, _ => false

/-- `scope && claims.scope.indexOf(scope) === -1`: the scope check fires
only when a truthy (non-empty) scope string is configured, and rejects
when the required scope is not a substring of `claims.scope`. -/
def insufficientScope : Option String → String → Bool
  | some s, claimScope => jsTruthy (some s) && !(strIncludes claimScope s)
  | none, _ => false

/-- The shared claim-validation run in the final callback of
`AccessToken.verify`: issuer, audience, expiry, scope, in that order,
first failure wins; success resolves with the claims object. -/
def validateClaims (claims : Claims) (options : VerifyOptions) (now : Int) :
    Except VerifyError Claims :=
  if claims.iss ≠ options.issuer then
    .error (.unauthorized mismatchingIssuerError)
  else if audienceMismatch options.clients claims.aud then
    .error (.unauthorized mismatchingAudienceError)
  else if claims.exp < now then
    .error (.unauthorized expiredAccessTokenError)
  else if insufficientScope options.scope claims.scope then
    .error (.unauthorized insufficientScopeError)
  else
    .ok claims

/-- `AccessToken.verify(token, options, callback)`: run both branches,
propagate the first branch error, then take
`claims = result.random || result.jwt.payload` and validate.  The
`(none, none)` case is unreachable (every token activates exactly one
branch); in JS it would throw reading `result.jwt.payload`. -/
def AccessToken.verify (token : String) (options : VerifyOptions) (env : VerifyEnv) :
    Except VerifyError Claims :=
  match jwtBranch token options env, randomBranch token env with
  | .error e, _ => .error e
  | .ok _, .error e => .error e
  | .ok jwtRes, .ok randomRes =>
    match randomRes, jwtRes with
    | some claims, _ => validateClaims claims options env.now
    | none, some d => validateClaims d.payload options env.now
    | none, none => .error (.transport "TypeError: result.jwt is undefined")

/-- The structured path in isolation: local decode, then validation. -/
def structuredPath (token : String) (options : VerifyOptions) (env : VerifyEnv) :
    Except VerifyError Claims :=
  match AccessToken.decode token options.key env.decodeEnv with
  | .error _ => .error (.unauthorized invalidAccessTokenError)
  | .ok d => validateClaims d.payload options env.now

/-- The opaque path in isolation: introspection, then validation. -/
def opaquePath (options : VerifyOptions) (env : VerifyEnv) :
    Except VerifyError Claims :=
  match env.introspect with
  | .transportErr msg => .error (.transport msg)
  | .errorBody e => .error (.unauthorized e)
  | .success body => validateClaims body options env.now

/-! ### The client module (`index.js`): configuration -/

/-- The state an `AnvilConnect` instance carries that the operations
below read: issuer, client credentials, redirect URI, the default scope
computed at construction time, and the retrieved JWK set (`jwks.sig`,
the key indexed by use, and `jwks.keys[0]`, the first raw key). -/
structure ClientConfig where
  issuer : String
  client_id : String
  client_secret : String
  redirect_uri : String
  scope : String
  jwksSig : String
  jwksFirstKey : String
  deriving DecidableEq, Repr

/-- The fields of the cached OIDC provider configuration that the
modelled operations read. -/
structure ProviderConfig where
  authorization_endpoint : String
  token_endpoint : String
  deriving DecidableEq, Repr

/-! ### `authorizationParams` -/

/-- The fixed allow-list of optional authorization request parameters. -/
def optionalParameters : List String :=
  ["email", "password", "provider", "state", "response_mode", "nonce",
   "display", "prompt", "max_age", "ui_locales", "id_token_hint",
   "login_hint", "acr_values"]

/-- The four request parameters always assigned by `authorizationParams`. -/
def requiredParamKeys : List String :=
  ["response_type", "client_id", "redirect_uri", "scope"]

/-- `authorizationParams(options)`.  A JS options object is modelled as a
partial map from keys to string values (`none` = property absent).  The
result assigns the four required params with their precedence rules, then
copies each allow-listed key from `options` when its value is truthy. -/
def authorizationParams (self : ClientConfig) (options : String → Option String) :
    String → Option String := fun k =>
  if k = "response_type" then some (jsOrS (options "response_type") "code")
  else if k = "client_id" then some self.client_id
  else if k = "redirect_uri" then some (jsOrS (options "redirect_uri") self.redirect_uri)
  else if k = "scope" then some (jsOrS (options "scope") self.scope)
  else if k ∈ optionalParameters then
    (if jsTruthy (options k) then options k else none)
  else none

/-! ### `authorizationUri` -/

/-- The options object accepted by `authorizationUri`: an optional
`endpoint` property plus the query-parameter properties that
`authorizationParams` reads. -/
structure AuthUriOptions where
  endpoint : Option String
  params : String → Option String

/-- The fresh `{}` assigned by `authorizationUri` when its argument is a
string or neither string nor object. -/
def emptyAuthOptions : AuthUriOptions :=
  ⟨none, fun _ => none⟩

/-- The possible JS arguments of `authorizationUri`: a bare string, an
object, or anything else (`undefined`, a number, ...). -/
inductive AuthUriArg where
  | str (s : String)
  | obj (o : AuthUriOptions)
  | other

/-- The parsed-then-formatted URL: the configured authorization
endpoint, the pathname assigned onto it (`none` models `undefined`), and
the query object. -/
structure BuiltUrl where
  base : String
  pathname : Option String
  query : String → Option String

/-- `authorizationUri(options)`: resolve the endpoint path — a string
argument replaces the default `'authorize'` and resets options to `{}`;
an object argument assigns `endpoint = options.endpoint` (possibly
`undefined`); any other argument keeps the default `'authorize'` — then
set the pathname and the query params on the parsed endpoint URL. -/
def authorizationUri (self : ClientConfig) (cfg : ProviderConfig) (arg : AuthUriArg) :
    BuiltUrl :=
  let resolved : Option String × AuthUriOptions :=
    match arg with
    | .str s => (some s, emptyAuthOptions)
    | .obj o => (o.endpoint, o)
    | .other => (some "authorize", emptyAuthOptions)
  { base := cfg.authorization_endpoint
    pathname := resolved.1
    query := authorizationParams self resolved.2.params }

/-! ### `token` -/

/-- The options object accepted by `token(options)`. -/
structure TokenOptions where
  code : Option String
  responseUri : Option String
  grant_type : Option String
  redirect_uri : Option String

/-- The characters of the query-string key `code`. -/
def codeKey : List Char := ['c', 'o', 'd', 'e']

/-- Everything of a URL after the first `?` and before any `#`
(the `query` property of `url.parse`). -/
def takeUntilHash : List Char → List Char
  | [] => []
  | c :: rest => if c == '#' then [] else c :: takeUntilHash rest

/-- Extract the query portion of a URL: scan to the first `?` (stopping
at `#`, which begins the fragment) and keep what follows up to `#`. -/
def queryOfUrl : List Char → List Char
  | [] => []
  | c :: rest =>
    if c == '#' then []
    else if c == '?' then takeUntilHash rest
    else queryOfUrl rest

/-- The key of a `key=value` query pair (everything before the first `=`). -/
def pairKey (p : List Char) : List Char :=
  p.takeWhile (fun c => !(c == '='))

/-- The value of a `key=value` query pair (everything after the first
`=`; a pair without `=` has the empty value, as in `qs.parse`). -/
def pairVal (p : List Char) : List Char :=
  ((p.dropWhile (fun c => !(c == '='))).drop 1)

/-- `qs.parse(query)[key]`: the value of the first `&`-separated pair
whose key matches, `none` when no pair has the key. -/
def lookupParam (query : List Char) (key : List Char) : Option (List Char) :=
  (splitOnChar '&' query).findSome? fun p =>
    if pairKey p == key then some (pairVal p) else none

/-- The `code` query parameter of a redirect-back URL
(`qs.parse(url.parse(uri).query).code`). -/
def responseUriCode (uri : String) : Option String :=
  (lookupParam (queryOfUrl uri.data) codeKey).map (fun v => ⟨v⟩)

/-- The authorization-code resolution step of `token(options)`:
`options.code`, or — when that is falsy and `options.responseUri` is
truthy — the `code` query parameter parsed from the response URI. -/
def resolveCode (o : TokenOptions) : Option String :=
  let code := o.code
  if !(jsTruthy code) && jsTruthy o.responseUri then
    match o.responseUri with
    | some uri => responseUriCode uri
    | none => code
  else code

/-- The HTTP request `token(options)` would issue to the token endpoint:
form body `{grant_type, code, redirect_uri}` with HTTP Basic auth. -/
structure TokenRequest where
  url : String
  grant_type : String
  code : String
  redirect_uri : String
  authUser : String
  authPass : String
  deriving DecidableEq, Repr

/-- The code-resolution and request-construction stage of
`token(options)`: with no resolvable (truthy) code the promise rejects
with `Error('Missing authorization code')` and no request is built;
otherwise the POST request to the token endpoint is assembled. -/
def tokenRequest (self : ClientConfig) (cfg : ProviderConfig) (o : TokenOptions) :
    Except String TokenRequest :=
  let code := resolveCode o
  if !(jsTruthy code) then
    .error "Missing authorization code"
  else
    .ok { url := cfg.token_endpoint
          grant_type := jsOrS o.grant_type "authorization_code"
          code := jsOrS code ""
          redirect_uri := jsOrS o.redirect_uri self.redirect_uri
          authUser := self.client_id
          authPass := self.client_secret }

/-! ### Standalone `verify` -/

/-- The options object a caller passes to the standalone
`verify(token, options)` entry point; every field is optional. -/
structure StandaloneVerifyOptions where
  issuer : Option String
  client_id : Option String
  client_secret : Option String
  scope : Option String
  key : Option String
  clients : Option (List String)
  deriving DecidableEq, Repr

/-- The option-defaulting performed by standalone `verify` before it
delegates to `AccessToken.verify`: issuer, client_id, client_secret,
scope and key fall back to the client instance (`this.jwks.sig` for the
key); `options.clients` is passed through untouched — `verify` never
populates it. -/
def resolveVerifyOptions (self : ClientConfig) (o : StandaloneVerifyOptions) :
    VerifyOptions :=
  { issuer := jsOrS o.issuer self.issuer
    client_id := jsOrS o.client_id self.client_id
    client_secret := jsOrS o.client_secret self.client_secret
    key := jsOrS o.key self.jwksSig
    clients := o.clients
    scope := some (jsOrS o.scope self.scope) }

/-- `AnvilConnect.prototype.verify`: default the options from the
client instance, then delegate to `AccessToken.verify`. -/
def standaloneVerify (self : ClientConfig) (o : StandaloneVerifyOptions)
    (token : String) (env : VerifyEnv) : Except VerifyError Claims :=
  AccessToken.verify token (resolveVerifyOptions self o) env

/-! ### Helper lemmas -/

/-- An absent property is falsy. -/
theorem jsTruthy_none : jsTruthy none = false := rfl

/-- The empty needle occurs in every haystack (`hay.indexOf('') === 0`). -/
theorem strIncludes_empty (hay : String) : strIncludes hay "" = true := by
  show occursIn [] hay.data = true
  cases hay.data <;> simp [occursIn, leadMatch]

/-! ### Concrete fixtures used by witnesses and counterexamples -/

/-- A claims object satisfying every check of `wOptions` at time 50. -/
def wClaims : Claims :=
  ⟨"jti1", "https://idp.example", "alice", "clientA", "openid profile", 100, 1⟩

/-- Verification options with issuer, an acceptable-clients list and a
required scope configured. -/
def wOptions : VerifyOptions :=
  ⟨"https://idp.example", "clientA", "secret", "rsa-key", some ["clientA"], some "profile"⟩

/-- `wClaims` with a mismatching issuer. -/
def wBadIss : Claims :=
  { wClaims with iss := "https://evil.example" }

/-! ### C1 -/

/-- Claims that a forged structured token carries. -/
def c1Claims : Claims :=
  ⟨"jti1", "https://idp.example", "alice", "clientA", "openid profile", 2000000000, 1⟩

/-- A declared header whose algorithm is `none`, not an accepted value. -/
def c1Header : JwtHeader := ⟨"none"⟩

/-- Environment in which the segment `h` parses to `c1Header` and the
segment `p` parses to `c1Claims`; introspection is never reached. -/
def c1Env : VerifyEnv :=
  ⟨⟨fun s => if s == ['h'] then some c1Header else none,
    fun s => if s == ['p'] then some c1Claims else none⟩,
   .transportErr "introspection not called", 1000⟩

/-- Options carrying a configured signing key. -/
def c1Options : VerifyOptions :=
  ⟨"https://idp.example", "clientA", "secret", "configured-rsa-key", none, none⟩

/-- **C1.** The claim fails on the code: `AccessToken.verify` resolves a
structured token's decoded payload as trusted claims although no
signature-verification collaborator exists anywhere on the structured
path — `AccessToken.decode` provably ignores its `publickey` argument
entirely, and the declared algorithm (here `"none"`) is never checked
against an accepted value.  The token `"h.p.forgedsignature"` carries an
arbitrary signature segment and is accepted. -/
theorem unverified_payload_trusted :
    AccessToken.verify "h.p.forgedsignature" c1Options c1Env = .ok c1Claims
    ∧ (∀ (k1 k2 : String) (denv : DecodeEnv) (t : String),
        AccessToken.decode t k1 denv = AccessToken.decode t k2 denv)
    ∧ c1Header.alg ≠ "RS256" :=
  ⟨by decide, fun _ _ _ _ => rfl, by decide⟩

/-! ### C2 -/

/-- **C2.** Claim validation runs in the fixed order issuer, audience,
expiry, scope; the first failing check determines the rejection (with
the stated error objects), no later check is evaluated after a failure,
and when every check passes the call resolves with the claims object. -/
theorem validateClaims_ordered_fail_fast
    (claims : Claims) (options : VerifyOptions) (now : Int) :
    (claims.iss ≠ options.issuer →
      validateClaims claims options now = .error (.unauthorized mismatchingIssuerError))
    ∧ (claims.iss = options.issuer →
      audienceMismatch options.clients claims.aud = true →
      validateClaims claims options now = .error (.unauthorized mismatchingAudienceError))
    ∧ (claims.iss = options.issuer →
      audienceMismatch options.clients claims.aud = false →
      claims.exp < now →
      validateClaims claims options now = .error (.unauthorized expiredAccessTokenError))
    ∧ (claims.iss = options.issuer →
      audienceMismatch options.clients claims.aud = false →
      ¬ claims.exp < now →
      insufficientScope options.scope claims.scope = true →
      validateClaims claims options now = .error (.unauthorized insufficientScopeError))
    ∧ (claims.iss = options.issuer →
      audienceMismatch options.clients claims.aud = false →
      ¬ claims.exp < now →
      insufficientScope options.scope claims.scope = false →
      validateClaims claims options now = .ok claims) := by
  unfold validateClaims
  refine ⟨?_, ?_, ?_, ?_, ?_⟩ <;> intros <;> simp_all

/-- Witness for C2: a mismatching issuer is rejected first, and fully
valid claims resolve successfully. -/
theorem validateClaims_ordered_fail_fast_witness :
    validateClaims wBadIss wOptions 50 = .error (.unauthorized mismatchingIssuerError)
    ∧ validateClaims wClaims wOptions 50 = .ok wClaims :=
  ⟨(validateClaims_ordered_fail_fast wBadIss wOptions 50).1 (by decide),
   (validateClaims_ordered_fail_fast wClaims wOptions 50).2.2.2.2
     (by decide) (by decide) (by decide) (by decide)⟩

/-! ### C3 -/

/-- **C3.** Every token is classified into exactly one of the two
mutually exclusive forms: a token containing at least one `.` follows
the structured (local decode) path while the introspection branch stays
inactive, and a token with no `.` follows the opaque (introspection)
path while the decode branch stays inactive; `AccessToken.verify` is
exactly the dispatch on this classification. -/
theorem verify_classifies_each_token_into_exactly_one_path
    (token : String) (options : VerifyOptions) (env : VerifyEnv) :
    (AccessToken.verify token options env =
      if containsDot token then structuredPath token options env
      else opaquePath options env)
    ∧ (containsDot token = true → randomBranch token env = .ok none)
    ∧ (containsDot token = false → jwtBranch token options env = .ok none) := by
  refine ⟨?_, ?_, ?_⟩
  · cases h : containsDot token with
    | true =>
      simp only [AccessToken.verify, jwtBranch, randomBranch, structuredPath, h,
        if_true, Bool.not_true, if_false]
      cases AccessToken.decode token options.key env.decodeEnv <;> simp
    | false =>
      simp only [AccessToken.verify, jwtBranch, randomBranch, opaquePath, h,
        if_false, Bool.not_false, if_true]
      cases env.introspect <;> simp
  · intro h
    simp [randomBranch, h]
  · intro h
    simp [jwtBranch, h]

/-- Witness for C3: the inactive branch of a structured and of an opaque
token. -/
theorem verify_classification_witness :
    randomBranch "h.p.forgedsignature" c1Env = .ok none
    ∧ jwtBranch "opaquetoken" c1Options c1Env = .ok none :=
  ⟨(verify_classifies_each_token_into_exactly_one_path
      "h.p.forgedsignature" c1Options c1Env).2.1 (by decide),
   (verify_classifies_each_token_into_exactly_one_path
      "opaquetoken" c1Options c1Env).2.2 (by decide)⟩

/-! ### C4 -/

/-- **C4.** When the issuer, audience and expiry checks pass: with a
required scope configured, validation rejects with the
insufficient-scope error exactly when the required scope is not a
substring of the space-delimited `claims.scope`; with no required scope
configured the scope check is skipped and validation resolves. -/
theorem scope_check_substring_exact
    (claims : Claims) (options : VerifyOptions) (now : Int)
    (hiss : claims.iss = options.issuer)
    (haud : audienceMismatch options.clients claims.aud = false)
    (hexp : ¬ claims.exp < now) :
    (∀ s, options.scope = some s →
      (validateClaims claims options now = .error (.unauthorized insufficientScopeError)
        ↔ strIncludes claims.scope s = false))
    ∧ (options.scope = none → validateClaims claims options now = .ok claims) := by
  constructor
  · intro s hs
    by_cases hempty : s = ""
    · subst hempty
      have hocc := strIncludes_empty claims.scope
      simp [validateClaims, hiss, haud, hexp, insufficientScope, hs, jsTruthy, hocc]
    · cases hocc : strIncludes claims.scope s <;>
        simp [validateClaims, hiss, haud, hexp, insufficientScope, hs, jsTruthy,
          hempty, hocc]
  · intro hs
    simp [validateClaims, hiss, haud, hexp, insufficientScope, hs]

/-- Witness for C4: with required scope `"profile"`, claims whose scope
omits it are rejected although issuer, audience and expiry are valid,
and with no required scope they resolve. -/
theorem scope_check_substring_exact_witness :
    validateClaims { wClaims with scope := "openid" } wOptions 50 =
      .error (.unauthorized insufficientScopeError)
    ∧ validateClaims { wClaims with scope := "openid" }
        { wOptions with scope := none } 50 = .ok { wClaims with scope := "openid" } :=
  ⟨((scope_check_substring_exact { wClaims with scope := "openid" } wOptions 50
      (by decide) (by decide) (by decide)).1 "profile" (by decide)).mpr (by decide),
   (scope_check_substring_exact { wClaims with scope := "openid" }
      { wOptions with scope := none } 50
      (by decide) (by decide) (by decide)).2 (by decide)⟩

/-! ### C5 -/

/-- Expired claims whose issuer also mismatches. -/
def c5Claims : Claims :=
  ⟨"jti5", "https://evil.example", "bob", "clientA", "openid", 3, 1⟩

/-- Options configured for issuer `https://idp.example` only. -/
def c5Options : VerifyOptions :=
  ⟨"https://idp.example", "clientA", "secret", "rsa-key", none, none⟩

/-- Environment resolving the opaque token to `c5Claims` at time 10. -/
def c5Env : VerifyEnv :=
  ⟨⟨fun _ => none, fun _ => none⟩, .success c5Claims, 10⟩

/-- Counterexample for C5: a resolved claims object with `exp` strictly
below the current time is **not** rejected with the expired-token error
when an earlier check fails — here the mismatching issuer wins, so the
rejection is the issuer error, contradicting "regardless of the
correctness of the other claims". -/
theorem expiry_rejection_not_unconditional :
    c5Claims.exp < c5Env.now
    ∧ AccessToken.verify "opaquetoken5" c5Options c5Env =
        .error (.unauthorized mismatchingIssuerError)
    ∧ AccessToken.verify "opaquetoken5" c5Options c5Env ≠
        .error (.unauthorized expiredAccessTokenError) := by
  decide

/-- **C5 (amended).** For claims that pass the issuer and audience
checks, `exp` strictly below the current time rejects with the
expired-token error; and whenever `exp` is at least the current time the
expiry check passes — validation never produces the expired-token
error. -/
theorem expiry_check_after_issuer_audience
    (claims : Claims) (options : VerifyOptions) (now : Int)
    (hiss : claims.iss = options.issuer)
    (haud : audienceMismatch options.clients claims.aud = false) :
    (claims.exp < now →
      validateClaims claims options now = .error (.unauthorized expiredAccessTokenError))
    ∧ (¬ claims.exp < now →
      validateClaims claims options now ≠ .error (.unauthorized expiredAccessTokenError)) := by
  constructor
  · intro hexp
    simp [validateClaims, hiss, haud, hexp]
  · intro hexp
    cases hscope : insufficientScope options.scope claims.scope <;>
      simp [validateClaims, hiss, haud, hexp, hscope, expiredAccessTokenError,
        insufficientScopeError]

/-- Witness for C5 (amended): expired claims passing the earlier checks
are rejected as expired; unexpired claims are not. -/
theorem expiry_check_after_issuer_audience_witness :
    validateClaims { wClaims with exp := 3 } wOptions 10 =
      .error (.unauthorized expiredAccessTokenError)
    ∧ validateClaims wClaims wOptions 10 ≠
        .error (.unauthorized expiredAccessTokenError) :=
  ⟨(expiry_check_after_issuer_audience { wClaims with exp := 3 } wOptions 10
      (by decide) (by decide)).1 (by decide),
   (expiry_check_after_issuer_audience wClaims wOptions 10
      (by decide) (by decide)).2 (by decide)⟩

/-! ### C6 -/

/-- A malformed structured token (wrong segment count, or a header or
payload segment that fails base64/JSON decoding) makes
`AccessToken.decode` return an `Error`. -/
theorem decode_malformed_isError
    (token : String) (key : String) (denv : DecodeEnv)
    (hbad : (splitOnChar '.' token.data).length ≠ 3
      ∨ denv.parseHeaderSeg ((splitOnChar '.' token.data).getD 0 []) = none
      ∨ denv.parsePayloadSeg ((splitOnChar '.' token.data).getD 1 []) = none) :
    ∃ e, AccessToken.decode token key denv = .error e := by
  by_cases hlen : (splitOnChar '.' token.data).length ≠ 3
  · exact ⟨.invalidSegments, by simp [AccessToken.decode, hlen]⟩
  · rcases hbad with h | h | h
    · exact absurd h hlen
    · refine ⟨.unableToDecode, ?_⟩
      simp only [List.getD_eq_getElem?_getD] at h
      simp [AccessToken.decode, hlen, h]
    · refine ⟨.unableToDecode, ?_⟩
      simp only [List.getD_eq_getElem?_getD] at h
      cases hh : denv.parseHeaderSeg ((splitOnChar '.' token.data)[0]?.getD []) <;>
        simp [AccessToken.decode, hlen, h, hh]

/-- **C6.** A token containing a `.` that does not split into exactly 3
segments, or whose header or payload segment fails decoding, is rejected
with the 401 invalid-access-token `UnauthorizedError` (realm `user`),
and claim validation is never reached: the rejection is the same for
every choice of issuer/clients/scope options and of current time. -/
theorem malformed_structured_token_rejected_401
    (token : String) (options : VerifyOptions) (env : VerifyEnv)
    (hdot : containsDot token = true)
    (hbad : (splitOnChar '.' token.data).length ≠ 3
      ∨ env.decodeEnv.parseHeaderSeg ((splitOnChar '.' token.data).getD 0 []) = none
      ∨ env.decodeEnv.parsePayloadSeg ((splitOnChar '.' token.data).getD 1 []) = none) :
    AccessToken.verify token options env = .error (.unauthorized invalidAccessTokenError)
    ∧ (∀ (options2 : VerifyOptions) (n : Int),
        AccessToken.verify token options2 { env with now := n } =
          .error (.unauthorized invalidAccessTokenError)) := by
  have main : ∀ (options2 : VerifyOptions) (n : Int),
      AccessToken.verify token options2 { env with now := n } =
        .error (.unauthorized invalidAccessTokenError) := by
    intro options2 n
    obtain ⟨e, he⟩ := decode_malformed_isError token options2.key env.decodeEnv hbad
    simp [AccessToken.verify, jwtBranch, hdot, he]
  exact ⟨main options env.now, main⟩

/-- Witness for C6: the two-segment token `"a.b"` is rejected with the
401 error. -/
theorem malformed_structured_token_rejected_401_witness :
    AccessToken.verify "a.b" c1Options c1Env =
      .error (.unauthorized invalidAccessTokenError) :=
  (malformed_structured_token_rejected_401 "a.b" c1Options c1Env
    (by decide) (Or.inl (by decide))).1

/-! ### Shared concrete client fixtures -/

/-- A concrete client instance. -/
def self0 : ClientConfig :=
  ⟨"https://idp.example", "clientA", "secret", "https://app.example/cb",
   "openid profile", "sig-key", "first-key"⟩

/-- A concrete provider configuration. -/
def providerCfg0 : ProviderConfig :=
  ⟨"https://idp.example/authorize", "https://idp.example/token"⟩

/-! ### C7 -/

/-- **C7.** The standalone `verify` defaults issuer, client_id,
client_secret, scope and key from the client instance but never
populates `options.clients`; consequently the claim validation it
delegates to can never produce the mismatching-audience rejection, and
claims bearing any `aud` value whatsoever are accepted provided the
issuer, expiry and scope checks pass. -/
theorem standalone_verify_never_checks_audience
    (self : ClientConfig) (o : StandaloneVerifyOptions)
    (hclients : o.clients = none) :
    (resolveVerifyOptions self o).clients = none
    ∧ (o.issuer = none → (resolveVerifyOptions self o).issuer = self.issuer)
    ∧ (o.client_id = none → (resolveVerifyOptions self o).client_id = self.client_id)
    ∧ (o.client_secret = none →
        (resolveVerifyOptions self o).client_secret = self.client_secret)
    ∧ (o.key = none → (resolveVerifyOptions self o).key = self.jwksSig)
    ∧ (o.scope = none → (resolveVerifyOptions self o).scope = some self.scope)
    ∧ (∀ (claims : Claims) (now : Int),
        validateClaims claims (resolveVerifyOptions self o) now ≠
          .error (.unauthorized mismatchingAudienceError))
    ∧ (∀ (claims : Claims) (now : Int),
        claims.iss = (resolveVerifyOptions self o).issuer →
        ¬ claims.exp < now →
        insufficientScope (resolveVerifyOptions self o).scope claims.scope = false →
        validateClaims claims (resolveVerifyOptions self o) now = .ok claims) := by
  have hA : ∀ aud, audienceMismatch (resolveVerifyOptions self o).clients aud = false := by
    intro aud
    simp [resolveVerifyOptions, hclients, audienceMismatch]
  refine ⟨?_, ?_, ?_, ?_, ?_, ?_, ?_, ?_⟩
  · simp [resolveVerifyOptions, hclients]
  · intro h; simp [resolveVerifyOptions, jsOrS, h]
  · intro h; simp [resolveVerifyOptions, jsOrS, h]
  · intro h; simp [resolveVerifyOptions, jsOrS, h]
  · intro h; simp [resolveVerifyOptions, jsOrS, h]
  · intro h; simp [resolveVerifyOptions, jsOrS, h]
  · intro claims now
    by_cases h1 : claims.iss = (resolveVerifyOptions self o).issuer <;>
      by_cases h2 : claims.exp < now <;>
        cases h3 : insufficientScope (resolveVerifyOptions self o).scope claims.scope <;>
          simp [validateClaims, h1, h2, h3, hA, mismatchingIssuerError,
            mismatchingAudienceError, expiredAccessTokenError, insufficientScopeError]
  · intro claims now h1 h2 h3
    simp [validateClaims, h1, h2, h3, hA]

/-- Witness for C7: with no caller-supplied options, claims whose `aud`
is a value never configured anywhere are accepted. -/
theorem standalone_verify_never_checks_audience_witness :
    validateClaims { wClaims with aud := "totally-unrelated-audience" }
      (resolveVerifyOptions self0 ⟨none, none, none, none, none, none⟩) 50 =
      .ok { wClaims with aud := "totally-unrelated-audience" } :=
  (standalone_verify_never_checks_audience self0
      ⟨none, none, none, none, none, none⟩ rfl).2.2.2.2.2.2.2
    { wClaims with aud := "totally-unrelated-audience" } 50
    (by decide) (by decide) (by decide)

/-! ### C8 -/

/-- **C8.** The output of `authorizationParams` always contains the four
required fields with the stated precedence — `response_type` defaults to
`"code"`, `client_id` always comes from the client configuration,
`redirect_uri` and `scope` come from the caller's override else the
client default — and every key outside both the required fields and the
fixed optional allow-list is absent from the output. -/
theorem authorizationParams_required_and_allowlist
    (self : ClientConfig) (options : String → Option String) :
    authorizationParams self options "response_type" =
      some (jsOrS (options "response_type") "code")
    ∧ authorizationParams self options "client_id" = some self.client_id
    ∧ authorizationParams self options "redirect_uri" =
        some (jsOrS (options "redirect_uri") self.redirect_uri)
    ∧ authorizationParams self options "scope" = some (jsOrS (options "scope") self.scope)
    ∧ (∀ k, k ∉ requiredParamKeys → k ∉ optionalParameters →
        authorizationParams self options k = none) := by
  refine ⟨by simp [authorizationParams], by simp [authorizationParams],
    by simp [authorizationParams], by simp [authorizationParams], ?_⟩
  intro k hreq hopt
  simp only [requiredParamKeys, List.mem_cons, List.not_mem_nil, or_false] at hreq
  push_neg at hreq
  obtain ⟨h1, h2, h3, h4⟩ := hreq
  simp [authorizationParams, h1, h2, h3, h4, hopt]

/-- A caller options object supplying `state` (allow-listed) and `foo`
(not allow-listed). -/
def c8Options : String → Option String := fun k =>
  if k = "state" then some "xyz"
  else if k = "foo" then some "bar"
  else none

/-- Witness for C8: `client_id` comes from the client configuration and
the caller-supplied key `foo` is absent from the output. -/
theorem authorizationParams_required_and_allowlist_witness :
    authorizationParams self0 c8Options "client_id" = some self0.client_id
    ∧ authorizationParams self0 c8Options "foo" = none :=
  ⟨(authorizationParams_required_and_allowlist self0 c8Options).2.1,
   (authorizationParams_required_and_allowlist self0 c8Options).2.2.2.2
     "foo" (by decide) (by decide)⟩

/-! ### C9 -/

/-- **C9.** When no authorization code can be resolved — `options.code`
is falsy and parsing the `code` query parameter of `options.responseUri`
yields nothing truthy — `token(options)` fails with the
missing-authorization-code error and no token-endpoint request is
built. -/
theorem missing_code_rejects_before_request
    (self : ClientConfig) (cfg : ProviderConfig) (o : TokenOptions)
    (hcode : jsTruthy o.code = false)
    (huri : ∀ uri, o.responseUri = some uri → jsTruthy (responseUriCode uri) = false) :
    tokenRequest self cfg o = .error "Missing authorization code" := by
  unfold tokenRequest resolveCode
  cases hu : o.responseUri with
  | none => simp [hcode, hu, jsTruthy_none]
  | some uri =>
    have hv := huri uri hu
    cases he : jsTruthy (some uri) with
    | true => simp [hcode, hu, he, hv]
    | false => simp [hcode, hu, he]

/-- Token-exchange options carrying no code and a redirect-back URI
whose query has no `code` parameter. -/
def c9Options : TokenOptions :=
  ⟨none, some "https://app.example/cb?state=abc", none, none⟩

/-- Witness for C9: with no code anywhere, the exchange rejects with the
missing-authorization-code error. -/
theorem missing_code_rejects_before_request_witness :
    tokenRequest self0 providerCfg0 c9Options = .error "Missing authorization code" := by
  apply missing_code_rejects_before_request
  · decide
  · intro uri h
    have h2 : (some uri : Option String) = some "https://app.example/cb?state=abc" :=
      h.symm.trans rfl
    injection h2 with h3
    subst h3
    decide

/-! ### C10 -/

/-- **C10.** `authorizationUri` given an object without an `endpoint`
field sets the URL's path from the absent value (`undefined`), not from
the default `"authorize"`; the default path is used only when the
argument is neither a string nor an object; and a string argument
replaces the path while discarding all caller query-parameter options. -/
theorem authorizationUri_pathname_quirk
    (self : ClientConfig) (cfg : ProviderConfig) :
    (∀ o : AuthUriOptions, o.endpoint = none →
      (authorizationUri self cfg (.obj o)).pathname = none
      ∧ (authorizationUri self cfg (.obj o)).pathname ≠ some "authorize")
    ∧ (authorizationUri self cfg .other).pathname = some "authorize"
    ∧ (∀ s, (authorizationUri self cfg (.str s)).pathname = some s
        ∧ (authorizationUri self cfg (.str s)).query =
            authorizationParams self emptyAuthOptions.params) := by
  refine ⟨?_, rfl, ?_⟩
  · intro o h
    refine ⟨by simp [authorizationUri, h], by simp [authorizationUri, h]⟩
  · intro s
    exact ⟨rfl, rfl⟩

/-- An `authorizationUri` options object passing only query parameters. -/
def c10Options : AuthUriOptions :=
  ⟨none, fun k => if k = "state" then some "xyz" else none⟩

/-- Witness for C10: passing only query parameters yields a URL whose
pathname is `undefined`, not `"authorize"`. -/
theorem authorizationUri_pathname_quirk_witness :
    (authorizationUri self0 providerCfg0 (.obj c10Options)).pathname = none :=
  ((authorizationUri_pathname_quirk self0 providerCfg0).1 c10Options rfl).1

end AnvilConnect
